import Mathlib

/-!
Verification of the offline/synchronization subsystem of the NestTask PWA.

The definitions below are shallow embeddings of the TypeScript / JavaScript
source files:

* `src/src/utils/offlineStorage.ts` — the IndexedDB-backed Durable Store;
* `src/src/hooks/useData.ts`        — the memory-cache read hook `useData`
                                      and the pending-operations queue hook
                                      `useOperations`;
* `src/public/service-worker.js`    — the Network Cache Controller;
* the PWA lifecycle module           — the page-side Lifecycle Supervisor
                                      (keep-alive / reinstall throttle).

Conventions used throughout the embedding:

* timestamps are modelled as `Nat` epoch-milliseconds (the source stores
  ISO-8601 strings and round-trips them through `new Date(...).getTime()`;
  that round trip is the identity on well-formed timestamps);
* machine/JS arithmetic on timestamps is done in `Int` where a subtraction
  could go negative (JS numbers are signed);
* promises are modelled by explicit outcome types: `Except` for a promise
  that settles, and a dedicated `PromiseState` with a `pending` constructor
  where the source can leak a never-settling promise;
* the external world (IndexedDB request outcomes, `fetch` results) is an
  explicit oracle argument so that each code path of the source is reachable
  in the model.
-/

namespace NestTask

/-! ## Durable Store records (`offlineStorage.ts`)

A cached record: a domain entity (its `id` key plus its domain fields)
augmented with the optional `cached_at` timestamp that `saveToIndexedDB`
stamps at write time.  Domain fields are modelled as an association list of
field names to values. -/

structure Record where
  id : String
  fields : List (String × String)
  cached_at : Option Nat
deriving DecidableEq

/-- `offlineStorage.ts` lines 122-127 / 143-147: `if (!item.cached_at) {
item.cached_at = new Date().toISOString(); }` — stamp the write-time
timestamp when the record does not already carry one. -/
def stampCachedAt (now : Nat) (item : Record) : Record :=
  if item.cached_at.isNone then { item with cached_at := some now } else item

/-- IndexedDB `store.put(item)` on an object store with `keyPath: 'id'`:
upsert — replace the record stored under the same `id`, or add the record
when no record with that `id` exists. -/
def putRecord (store : List Record) (item : Record) : List Record :=
  if store.any (fun o => o.id = item.id) then
    store.map (fun o => if o.id = item.id then item else o)
  else
    store ++ [item]

/-- `offlineStorage.ts` lines 142-159 (`saveToIndexedDB`, single-item branch),
success path: stamp `cached_at` if absent, then `store.put` the item. -/
def saveToIndexedDBSingle (now : Nat) (store : List Record) (item : Record) :
    List Record :=
  putRecord store (stampCachedAt now item)

/-- `offlineStorage.ts` lines 213-239 (`getByIdFromIndexedDB`), success path:
`store.get(id)` then `resolve(request.result || null)`. -/
def getByIdFromIndexedDB (store : List Record) (id : String) : Option Record :=
  store.find? (fun r => r.id = id)

/-- The whole database: one record list per collection name.  `saveToIndexedDB`
and `getByIdFromIndexedDB` each open a transaction on one named object
store and leave every other store untouched. -/
def dbSaveSingle (db : String → List Record) (storeName : String) (now : Nat)
    (item : Record) : String → List Record :=
  fun c => if c = storeName then saveToIndexedDBSingle now (db c) item else db c

def dbGetById (db : String → List Record) (storeName : String) (id : String) :
    Option Record :=
  getByIdFromIndexedDB (db storeName) id

/-! ## Durable Store promise settlement (`saveToIndexedDB`, array branch) -/

inductive PromiseState where
  | pending
  | resolved
  | rejected
deriving DecidableEq

/-- `offlineStorage.ts` lines 112-169 (`saveToIndexedDB`, array branch):
settlement of the returned promise.  `resolve()` is called only inside a
per-item `request.onsuccess` callback once `completed === total`, and
`reject` only inside a `request.onerror` (or transaction error) callback.
For an empty array `data.forEach` registers no request at all, so no
callback ever runs and the promise stays pending forever.  For a non-empty
array each item is stamped with `cached_at` and `put`; the promise resolves
once every put succeeded and rejects on the first failing put.  `putOk` is
the oracle for whether the underlying put request succeeds. -/
def saveToIndexedDBArraySettlement (putOk : Record → Bool) (now : Nat)
    (data : List Record) : PromiseState :=
  if data.isEmpty then .pending
  else if (data.map (stampCachedAt now)).all putOk then .resolved
  else .rejected

/-! ## `getAllFromIndexedDB` and its try/catch (`offlineStorage.ts` 180-206) -/

/-- Semantics of a JS `async` function of the shape
`try { await step; return innerPromise; } catch (e) { return fallback; }`:
an exception at the awaited step is caught and replaced by the fallback,
but the promise produced by the `return` statement is not awaited inside
the `try`, so the async function's result promise merely adopts it — a
later rejection of the inner promise happens after control has left the
`try` block and is NOT intercepted by the `catch`. -/
def tryCatchAsyncReturn {ε α : Type} (step : Except ε Unit)
    (inner : Except ε α) (fallback : α) : Except ε α :=
  match step with
  | .error _ => .ok fallback
  | .ok _ => inner

/-- The underlying-store outcomes `getAllFromIndexedDB` can encounter:
`openDatabase()` rejecting, the `store.getAll()` request erroring
(`request.onerror` fires and rejects the inner promise), or success with
the store's records. -/
inductive IDBReadOutcome where
  | openFailure (error : String)
  | requestFailure (error : String)
  | success (records : List Record)
deriving DecidableEq

/-- The `await openDatabase()` step. -/
def openDatabaseStep : IDBReadOutcome → Except String Unit
  | .openFailure e => .error e
  | _ => .ok ()

/-- The inner `new Promise((resolve, reject) => ...)` of
`getAllFromIndexedDB`: `request.onsuccess` resolves `request.result || []`,
`request.onerror` rejects with the request error.  (Only reached when the
database opened.) -/
def getAllInnerPromise : IDBReadOutcome → Except String (List Record)
  | .openFailure e => .error e
  | .requestFailure e => .error e
  | .success records => .ok records

/-- `offlineStorage.ts` lines 180-206 (`getAllFromIndexedDB`):
`try { const db = await openDatabase(); return new Promise(...); }
catch (error) { return []; }` — the `catch` covers the awaited
`openDatabase()` step but, per `tryCatchAsyncReturn`, not a later rejection
of the returned inner promise. -/
def getAllFromIndexedDB (outcome : IDBReadOutcome) :
    Except String (List Record) :=
  tryCatchAsyncReturn (openDatabaseStep outcome) (getAllInnerPromise outcome) []

/-! ## Stale-cache cleanup (`offlineStorage.ts` 309-361) -/

/-- `offlineStorage.ts` line 28: cache expiration, 4 hours in milliseconds. -/
def CACHE_EXPIRATION : Nat := 4 * 60 * 60 * 1000

/-- Lines 332-345: an item is deleted iff it carries a `cached_at` timestamp
whose age `now - cached_at` strictly exceeds `CACHE_EXPIRATION`; items
without `cached_at` are skipped.  The age is computed in signed (JS number)
arithmetic. -/
def isStaleItem (now : Nat) (item : Record) : Bool :=
  match item.cached_at with
  | none => false
  | some t => decide ((now : Int) - (t : Int) > (CACHE_EXPIRATION : Int))

/-- `offlineStorage.ts` lines 309-361 (`cleanupStaleCacheData`): walk every
object store of the database, skip stores whose name starts with
`"pending"`, and in each remaining store delete exactly the stale items. -/
def cleanupStaleCacheData (now : Nat) (db : List (String × List Record)) :
    List (String × List Record) :=
  db.map (fun store =>
    if store.1.startsWith "pending" then store
    else (store.1, store.2.filter (fun item => !isStaleItem now item)))

/-! ## Network Cache Controller (`public/service-worker.js`) -/

def STATIC_CACHE_NAME : String := "nesttask-static-v2"

def DYNAMIC_CACHE_NAME : String := "nesttask-dynamic-v2"

def OFFLINE_URL : String := "/offline.html"

/-- `service-worker.js` lines 8-12. -/
def PRECACHE_ASSETS : List String := ["/", "/offline.html", "/icons/icon-192x192.png"]

structure Response where
  body : String
  ok : Bool
deriving DecidableEq

/-- The cache contents visible to `caches.match`: URL → cached response
(the union of the buckets, as `caches.match` searches them all). -/
def cacheMatch (cache : List (String × Response)) (url : String) :
    Option Response :=
  (cache.find? (fun e => e.1 = url)).map (fun e => e.2)

/-- `cache.put(request, response)`: upsert by request URL. -/
def cachePut (cache : List (String × Response)) (url : String) (r : Response) :
    List (String × Response) :=
  if cache.any (fun e => e.1 = url) then
    cache.map (fun e => if e.1 = url then (url, r) else e)
  else cache ++ [(url, r)]

/-- `service-worker.js` lines 23-31 (install): `cache.addAll(PRECACHE_ASSETS)`
into the static bucket — fetch every listed asset and store it (`fetchAsset`
is the network oracle; the claims only concern a completed install, so the
all-or-nothing install failure is not modelled). -/
def installPrecache (fetchAsset : String → Response) :
    List (String × Response) :=
  PRECACHE_ASSETS.map (fun u => (u, fetchAsset u))

inductive NetworkResult where
  | success (r : Response)
  | failure
deriving DecidableEq

/-- `service-worker.js` lines 60-77, the `navigate` branch of the fetch
handler: serve the cached match for the request; on cache miss fetch from
the network, caching a clone of an `ok` response into the static bucket; on
total network failure fall back to `caches.match(OFFLINE_URL)`.  Returns
the response (`none` models a `respondWith` of `undefined`, i.e. even the
offline page is absent) and the resulting cache. -/
def handleNavigationFetch (cache : List (String × Response)) (url : String)
    (network : NetworkResult) : Option Response × List (String × Response) :=
  match cacheMatch cache url with
  | some r => (some r, cache)
  | none =>
    match network with
    | .success r => (some r, if r.ok then cachePut cache url r else cache)
    | .failure => (cacheMatch cache OFFLINE_URL, cache)

/-- `service-worker.js` lines 34-45 (activate): for every existing cache key,
the key is deleted iff it is neither the current static nor the current
dynamic bucket name. -/
def activateDeletedKeys (keyList : List String) : List String :=
  keyList.filter (fun key =>
    decide (key ≠ STATIC_CACHE_NAME) && decide (key ≠ DYNAMIC_CACHE_NAME))

/-- The cache buckets still present after the activate handler ran: exactly
those keys the handler did not delete. -/
def activateSurvivingKeys (keyList : List String) : List String :=
  keyList.filter (fun key =>
    !(decide (key ≠ STATIC_CACHE_NAME) && decide (key ≠ DYNAMIC_CACHE_NAME)))

/-! ## Pending-operations queue (`useData.ts` 127-278, `useOperations`) -/

inductive OperationType where
  | create
  | update
  | delete
deriving DecidableEq

structure Operation where
  id : String
  type : OperationType
  endpoint : String
  payload : String
  timestamp : Nat
  userId : String
deriving DecidableEq

/-- Outcome of `fetch(operation.endpoint, init)`: either the promise resolved
with an HTTP response of some status, or it rejected with an error value
(`isTypeError` — whether that value is a `TypeError`, which is how `fetch`
signals a connectivity failure — and its `message` string). -/
inductive FetchOutcome where
  | response (status : Nat)
  | reject (isTypeError : Bool) (message : String)
deriving DecidableEq

/-- `Response.ok`: the status is in the inclusive range 200-299. -/
def responseOk (status : Nat) : Bool :=
  decide (200 ≤ status) && decide (status < 300)

/-- Char-list prefix test (executable helper for the substring test below). -/
def charsStartWith : List Char → List Char → Bool
  | [], _ => true
  | _ :: _, [] => false
  | c :: cs, d :: ds => c = d && charsStartWith cs ds

/-- `needle` occurs as a contiguous run inside `haystack` — the semantics of
JS `String.prototype.includes` on the characters of the two strings. -/
def charsContain (needle : List Char) : List Char → Bool
  | [] => needle.isEmpty
  | d :: ds => charsStartWith needle (d :: ds) || charsContain needle ds

/-- `error.message.includes('network')` — the exact (case-sensitive)
substring test of `useData.ts` line 256. -/
def messageIncludesNetwork (message : String) : Bool :=
  charsContain "network".toList message.toList

/-- `useData.ts` lines 246-249: remove the executed operation from the
in-memory operation store by filtering on its id. -/
def removeOperation (store : List Operation) (opId : String) : List Operation :=
  store.filter (fun op => op.id ≠ opId)

/-- `useData.ts` lines 223-260, the `for` walk of `executeOperation`.  Each
pending operation's endpoint is fetched (`resp` is the network oracle).
`response.ok` ⇒ the operation is removed from the store and the walk
continues; an HTTP error status ⇒ `throw new Error(...)` — an `Error`, not
a `TypeError`, so the catch only logs and the walk continues; a rejected
fetch ⇒ the walk breaks iff the error is a `TypeError` whose message
contains `'network'`, otherwise it continues. -/
def executeWalk (resp : Operation → FetchOutcome) :
    List Operation → List Operation → List Operation
  | [], store => store
  | operation :: rest, store =>
    match resp operation with
    | .response status =>
      if responseOk status then
        executeWalk resp rest (removeOperation store operation.id)
      else
        executeWalk resp rest store
    | .reject isTypeError message =>
      if isTypeError && messageIncludesNetwork message then store
      else executeWalk resp rest store

/-- The hook-instance state `executeOperation` manipulates: the
`pendingOperations` React state, the module-level `operationStore` entry
for this store key, and the `isExecuting` re-entrancy flag. -/
structure QueueState where
  pendingOperations : List Operation
  operationStore : List Operation
  isExecuting : Bool
deriving DecidableEq

/-- `useData.ts` lines 214-269 (`executeOperation`): a no-op when the pending
list is empty or a pass is already executing; otherwise walk the pending
list against the store, then reload the pending list from the store
(`loadOperations`) and clear the `isExecuting` flag. -/
def executeOperation (resp : Operation → FetchOutcome) (s : QueueState) :
    QueueState :=
  if s.pendingOperations.isEmpty || s.isExecuting then s
  else
    let store := executeWalk resp s.pendingOperations s.operationStore
    { pendingOperations := store, operationStore := store, isExecuting := false }

/-- Spec-side classification, for comparison with the code's string match:
per the Fetch standard a network-connectivity failure rejects the fetch
promise with a `TypeError` (an HTTP error status instead resolves the
promise), whatever the `TypeError`'s message. -/
def connectivityFailureSpec : FetchOutcome → Bool
  | .reject true _ => true
  | _ => false

/-- Concrete operations for the C2 counterexample. -/
def opA : Operation := ⟨"op_a", .create, "/tasks", "{}", 1, "user1"⟩

def opB : Operation := ⟨"op_b", .update, "/tasks/2", "{}", 2, "user1"⟩

def opC : Operation := ⟨"op_c", .create, "/tasks", "{}", 3, "user1"⟩

/-- Network oracle for the C2 counterexample: A succeeds, B's fetch rejects
with Chrome's connectivity failure `TypeError: Failed to fetch` — a message
without the substring `'network'` — and C succeeds. -/
def respFailedToFetch (op : Operation) : FetchOutcome :=
  if op.id = "op_a" then .response 200
  else if op.id = "op_b" then .reject true "Failed to fetch"
  else .response 200

/-- Network oracle for the C1 scenario: A and C succeed (200/201), B fails
with HTTP status 500. -/
def respHttp500 (op : Operation) : FetchOutcome :=
  if op.id = "op_a" then .response 200
  else if op.id = "op_b" then .response 500
  else .response 201

/-- Network oracle for the C2 witness: A succeeds and B rejects with a
`TypeError` whose message contains the substring `'network'`. -/
def respNetworkError (op : Operation) : FetchOutcome :=
  if op.id = "op_a" then .response 200
  else .reject true "network error"

/-! ## Lifecycle Supervisor reinstall throttle (pwa module, `setupKeepAlive`) -/

inductive SWStatus where
  | active
  | inactive
  | errored
deriving DecidableEq

structure ServiceWorkerMetadata where
  lastPing : Nat
  lastResponse : Nat
  status : SWStatus
  errors : List String
  reinstallCount : Nat
  lastReinstall : Option Nat
deriving DecidableEq

/-- The default metadata `getServiceWorkerMetadata` returns before any health
check has run (pwa module lines 40-47). -/
def defaultMetadata : ServiceWorkerMetadata :=
  ⟨0, 0, .inactive, [], 0, none⟩

def THIRTY_MINUTES : Nat := 30 * 60 * 1000

/-- `metadata.lastReinstall < thirtyMinutesAgo` with `lastReinstall` possibly
`null` (JS: `null === null` was already checked first, so this is only
evaluated on a number). -/
def lastReinstallBefore (lastReinstall : Option Nat) (thirtyMinutesAgo : Int) :
    Bool :=
  match lastReinstall with
  | none => false
  | some t => decide ((t : Int) < thirtyMinutesAgo)

/-- `metadata.lastReinstall && metadata.lastReinstall > thirtyMinutesAgo`:
JS truthiness — both `null` and `0` are falsy, so the conjunction is false
for them and the count resets to 1. -/
def lastReinstallTruthyAfter (lastReinstall : Option Nat)
    (thirtyMinutesAgo : Int) : Bool :=
  match lastReinstall with
  | none => false
  | some t => decide (t ≠ 0) && decide ((t : Int) > thirtyMinutesAgo)

/-- `errors.push(msg)` followed by `errors = errors.slice(-10)` when the list
exceeds 10 entries (the bounded error log). -/
def pushBoundedError (errors : List String) (msg : String) : List String :=
  let es := errors ++ [msg]
  if 10 < es.length then es.drop (es.length - 10) else es

/-- pwa module lines 219-241 (the repair decision inside `setupKeepAlive`,
taken when a keep-alive ping and the subsequent health check both failed):
reinstall iff `reinstallCount < 3`, or `lastReinstall` is `null`, or the
last reinstall is older than the rolling 30-minute window; on reinstall the
count becomes `count + 1` when the last reinstall is (truthy and) inside
the window and `1` otherwise, and `lastReinstall := now`.  Otherwise the
repair is suppressed: only the bounded error log changes.  Returns the new
metadata and whether `reinstallServiceWorker()` was invoked. -/
def repairAttempt (metadata : ServiceWorkerMetadata) (now : Nat) :
    ServiceWorkerMetadata × Bool :=
  let thirtyMinutesAgo : Int := (now : Int) - (THIRTY_MINUTES : Int)
  if metadata.reinstallCount < 3 || metadata.lastReinstall.isNone
      || lastReinstallBefore metadata.lastReinstall thirtyMinutesAgo then
    ({ metadata with
        reinstallCount :=
          if lastReinstallTruthyAfter metadata.lastReinstall thirtyMinutesAgo
          then metadata.reinstallCount + 1 else 1,
        lastReinstall := some now }, true)
  else
    ({ metadata with
        errors := pushBoundedError metadata.errors "Too many reinstalls" },
      false)

/-! ## `useData` read hook (`useData.ts` 13-84) -/

structure HookState (α : Type) where
  data : Option α
  loading : Bool
  error : Option String
deriving DecidableEq

inductive FetchResult (α : Type) where
  | success (value : α)
  | failure (error : String)
deriving DecidableEq

/-- `useData.ts` lines 24-68 (`fetchData`): the hook states observable at the
suspension points of the effect — one state per synchronous segment (React
batches the `set*` calls of a segment, so these are exactly the states a
render can observe once the effect has started).  Cache hit: the segment
running up to `await fetcher()` has already set `data` to the cached value
and toggled `loading` back to `false`; the segment after the fetch either
installs the fresh value or, when the background fetch failed, leaves the
cached value in place and only logs (the inner `catch` sets no error
state, and the `finally` re-asserts `loading = false`).  Cache miss: the
first segment ends at `await fetcher()` still loading; the second installs
the fresh value or surfaces the error. -/
def fetchDataStates {α : Type} (cached : Option α)
    (fetchResult : FetchResult α) : List (HookState α) :=
  match cached with
  | some c =>
    ⟨some c, false, none⟩ ::
      (match fetchResult with
       | .success v => [⟨some v, false, none⟩]
       | .failure _ => [⟨some c, false, none⟩])
  | none =>
    ⟨none, true, none⟩ ::
      (match fetchResult with
       | .success v => [⟨some v, false, none⟩]
       | .failure e => [⟨none, false, some e⟩])

/-- The memory-cache entry for the key once the effect finished: overwritten
with the fresh value on fetch success (`useData.ts` lines 42-45 and 57-60),
untouched otherwise. -/
def fetchDataFinalCache {α : Type} (cached : Option α)
    (fetchResult : FetchResult α) : Option α :=
  match fetchResult with
  | .success v => some v
  | .failure _ => cached

/-! # Theorems -/

/-! ### Helper lemmas about `putRecord` -/

theorem getById_putRecord (store : List Record) (item : Record) :
    getByIdFromIndexedDB (putRecord store item) item.id = some item := by
  induction store with
  | nil => simp [putRecord, getByIdFromIndexedDB]
  | cons o rest ih =>
    by_cases h : o.id = item.id
    · simp [putRecord, getByIdFromIndexedDB, List.any_cons, h]
    · rcases ha : rest.any (fun o => o.id = item.id) with _ | _
      · simp [putRecord, getByIdFromIndexedDB, List.any_cons, List.find?, h, ha]
          at ih ⊢
        simpa [getByIdFromIndexedDB] using ih
      · simp [putRecord, getByIdFromIndexedDB, List.any_cons, List.find?, h, ha]
          at ih ⊢
        simpa [getByIdFromIndexedDB] using ih

theorem stampCachedAt_id (now : Nat) (r : Record) :
    (stampCachedAt now r).id = r.id := by
  unfold stampCachedAt
  split <;> rfl

theorem stampCachedAt_fields (now : Nat) (r : Record) :
    (stampCachedAt now r).fields = r.fields := by
  unfold stampCachedAt
  split <;> rfl

theorem stampCachedAt_isSome (now : Nat) (r : Record) :
    (stampCachedAt now r).cached_at.isSome = true := by
  unfold stampCachedAt
  rcases h : r.cached_at with _ | t <;> simp [h]

/-- C3: for every collection and every record, `saveToIndexedDB` followed by
`getByIdFromIndexedDB` on the record's id returns a record whose domain
fields equal the input's and whose `cached_at` timestamp is set — kept when
the input already carried one, stamped with the write time otherwise. -/
theorem claim_C3_save_then_getById (db : String → List Record)
    (storeName : String) (now : Nat) (r : Record) :
    ∃ stored : Record,
      dbGetById (dbSaveSingle db storeName now r) storeName r.id = some stored
      ∧ stored.id = r.id
      ∧ stored.fields = r.fields
      ∧ stored.cached_at.isSome = true
      ∧ (∀ t, r.cached_at = some t → stored.cached_at = some t)
      ∧ (r.cached_at = none → stored.cached_at = some now) := by
  refine ⟨stampCachedAt now r, ?_, stampCachedAt_id now r,
    stampCachedAt_fields now r, stampCachedAt_isSome now r, ?_, ?_⟩
  · have h := getById_putRecord (db storeName) (stampCachedAt now r)
    rw [stampCachedAt_id] at h
    simpa [dbGetById, dbSaveSingle, saveToIndexedDBSingle] using h
  · intro t ht
    simp [stampCachedAt, ht]
  · intro hnone
    simp [stampCachedAt, hnone]

/-- C5 (code bug evidence): `getAllFromIndexedDB` does return `[]` when the
database fails to open, but when the `getAll` read request fails the
returned promise rejects to the caller — the `return new Promise(...)`
inside the `try` block is not awaited, so the `catch` that returns `[]`
cannot intercept the inner promise's rejection. -/
theorem claim_C5_read_request_failure_rejects :
    getAllFromIndexedDB (.requestFailure "getAll request error")
        = .error "getAll request error"
    ∧ getAllFromIndexedDB (.openFailure "open error") = .ok []
    ∧ ∀ records, getAllFromIndexedDB (.success records) = .ok records :=
  ⟨rfl, rfl, fun _ => rfl⟩

/-- C6: the service worker's activate handler deletes exactly the cache
buckets whose name is neither the current static bucket name nor the
current dynamic bucket name; every bucket matching either name survives
activation. -/
theorem claim_C6_activate_bucket_cleanup (keyList : List String) (key : String) :
    (key ∈ activateDeletedKeys keyList
      ↔ key ∈ keyList ∧ key ≠ STATIC_CACHE_NAME ∧ key ≠ DYNAMIC_CACHE_NAME)
    ∧ (key ∈ activateSurvivingKeys keyList
      ↔ key ∈ keyList ∧ (key = STATIC_CACHE_NAME ∨ key = DYNAMIC_CACHE_NAME)) := by
  constructor
  · simp [activateDeletedKeys, List.mem_filter, and_assoc]
  · simp only [activateSurvivingKeys, List.mem_filter, Bool.not_eq_true',
      Bool.and_eq_false_iff, decide_eq_false_iff_not, not_not]

/-- C10: `saveToIndexedDB` called with an empty array returns a promise that
never settles (per-item success callbacks are the only resolution path and
none are registered for zero items); for every non-empty array the promise
resolves exactly when every individual upsert succeeded. -/
theorem claim_C10_empty_array_never_settles (putOk : Record → Bool) (now : Nat) :
    saveToIndexedDBArraySettlement putOk now [] = .pending
    ∧ ∀ data : List Record, data ≠ [] →
        (saveToIndexedDBArraySettlement putOk now data = .resolved
          ↔ ∀ item ∈ data, putOk (stampCachedAt now item) = true) := by
  constructor
  · rfl
  · intro data hne
    rw [saveToIndexedDBArraySettlement, if_neg (by simpa using hne)]
    by_cases hall : (data.map (stampCachedAt now)).all putOk = true
    · rw [if_pos hall]
      simpa [List.all_eq_true] using hall
    · rw [if_neg hall]
      have hnot : ¬ ∀ item ∈ data, putOk (stampCachedAt now item) = true := by
        intro h
        refine hall ?_
        simp only [List.all_eq_true, List.mem_map]
        rintro b ⟨item, hmem, rfl⟩
        exact h item hmem
      simp [hnot]

/-- C9: on a memory-cache hit `useData` serves the cached value at the very
first observable state of the effect, never shows a loading state at any
observable point of the cache-hit path, then updates its data to the
fetcher's result once it resolves (also overwriting the memory cache); if
the background fetch fails, the stale cached value continues to be served,
the memory cache is untouched and the error is never surfaced. -/
theorem claim_C9_stale_while_revalidate {α : Type} (c : α)
    (fetchResult : FetchResult α) :
    (fetchDataStates (some c) fetchResult).head? = some ⟨some c, false, none⟩
    ∧ (∀ s ∈ fetchDataStates (some c) fetchResult, s.loading = false)
    ∧ (∀ s ∈ fetchDataStates (some c) fetchResult, s.error = none)
    ∧ (∀ v, fetchResult = .success v →
        (fetchDataStates (some c) fetchResult).getLast? = some ⟨some v, false, none⟩
        ∧ fetchDataFinalCache (some c) fetchResult = some v)
    ∧ (∀ e, fetchResult = .failure e →
        (fetchDataStates (some c) fetchResult).getLast? = some ⟨some c, false, none⟩
        ∧ fetchDataFinalCache (some c) fetchResult = some c) := by
  rcases fetchResult with v | e <;>
    simp [fetchDataStates, fetchDataFinalCache, List.getLast?]

/-- Pointwise relation between a list and its image under `map`. -/
theorem forall₂_map_self {α β : Type} (f : α → β) (P : α → β → Prop)
    (h : ∀ a, P a (f a)) : ∀ l : List α, List.Forall₂ P l (l.map f)
  | [] => List.Forall₂.nil
  | a :: l => List.Forall₂.cons (h a) (forall₂_map_self f P h l)

/-- C4: `cleanupStaleCacheData` maps each object store of the database to a
result store with the same name; a store whose name starts with `"pending"`
is left untouched, and in every other store exactly the records whose age
`now - cached_at` exceeds the 4-hour expiration threshold are deleted —
the remaining records (including every record lacking a `cached_at`
timestamp) survive in their original order. -/
theorem claim_C4_cleanup_deletes_exactly_stale (now : Nat)
    (db : List (String × List Record)) :
    List.Forall₂ (fun store result =>
        result.1 = store.1
        ∧ (store.1.startsWith "pending" = true → result.2 = store.2)
        ∧ (store.1.startsWith "pending" = false →
            result.2.Sublist store.2
            ∧ ∀ item : Record, item ∈ result.2 ↔
                item ∈ store.2
                ∧ ¬∃ t, item.cached_at = some t
                    ∧ (now : Int) - (t : Int) > (CACHE_EXPIRATION : Int)))
      db (cleanupStaleCacheData now db) := by
  apply forall₂_map_self
  intro store
  by_cases h : store.1.startsWith "pending"
  · simp [h]
  · refine ⟨by simp [h], by simp [h], fun _ => ⟨by simp [h, List.filter_sublist], ?_⟩⟩
    intro item
    simp only [h, if_neg, Bool.false_eq_true, List.mem_filter, Bool.not_eq_true',
      ite_false]
    constructor
    · rintro ⟨hmem, hkeep⟩
      refine ⟨hmem, ?_⟩
      rintro ⟨t, hct, hage⟩
      rw [isStaleItem, hct] at hkeep
      simp only [Bool.not_eq_true', decide_eq_false_iff_not] at hkeep
      exact hkeep hage
    · rintro ⟨hmem, hfresh⟩
      refine ⟨hmem, ?_⟩
      rcases hct : item.cached_at with _ | t
      · simp [isStaleItem, hct]
      · simp only [isStaleItem, hct, Bool.not_eq_true', decide_eq_false_iff_not]
        intro hage
        exact hfresh ⟨t, hct, hage⟩

/-- C7: a same-origin navigation request that has no cached match and whose
network fetch fails entirely is answered with the offline fallback page
`/offline.html`, which the install handler precached into the static
bucket. -/
theorem claim_C7_navigation_offline_fallback
    (cache : List (String × Response)) (url : String) (offline : Response)
    (hmiss : cacheMatch cache url = none)
    (hoff : cacheMatch cache OFFLINE_URL = some offline) :
    (handleNavigationFetch cache url .failure).1 = some offline
    ∧ ∀ fetchAsset : String → Response,
        cacheMatch (installPrecache fetchAsset) OFFLINE_URL
          = some (fetchAsset OFFLINE_URL) := by
  constructor
  · rw [handleNavigationFetch, hmiss]
    exact hoff
  · intro fetchAsset
    simp [installPrecache, cacheMatch, PRECACHE_ASSETS, OFFLINE_URL, List.find?]

/-- C7 witness: after a fresh install against a network oracle answering each
precache URL with an `ok` response, the navigation request `/settings` —
uncached, network down — is answered with the cached offline page. -/
theorem claim_C7_witness :
    (handleNavigationFetch (installPrecache (fun u => ⟨u, true⟩)) "/settings"
        .failure).1 = some ⟨"/offline.html", true⟩
    ∧ ∀ fetchAsset : String → Response,
        cacheMatch (installPrecache fetchAsset) OFFLINE_URL
          = some (fetchAsset OFFLINE_URL) :=
  claim_C7_navigation_offline_fallback (installPrecache (fun u => ⟨u, true⟩))
    "/settings" ⟨"/offline.html", true⟩ (by decide) (by decide)

/-- During one execution pass, an operation disappears from the operation
store only if some pending operation carrying its id received a 2xx
response from its remote call. -/
theorem executeWalk_removed_only_on_success (resp : Operation → FetchOutcome) :
    ∀ (pending store : List Operation) (op : Operation),
      op ∈ store → op ∉ executeWalk resp pending store →
      ∃ op2, op2 ∈ pending ∧ op2.id = op.id
        ∧ ∃ status, resp op2 = .response status ∧ responseOk status = true := by
  intro pending
  induction pending with
  | nil =>
    intro store op hmem hout
    exact absurd hmem hout
  | cons p rest ih =>
    intro store op hmem hout
    rcases hr : resp p with status | ⟨isTypeError, message⟩
    · simp only [executeWalk, hr] at hout
      by_cases hok : responseOk status = true
      · rw [if_pos hok] at hout
        by_cases hmem2 : op ∈ removeOperation store p.id
        · obtain ⟨op2, h1, h2, h3⟩ := ih (removeOperation store p.id) op hmem2 hout
          exact ⟨op2, List.mem_cons_of_mem _ h1, h2, h3⟩
        · have hid : op.id = p.id := by
            by_contra hne
            exact hmem2 (List.mem_filter.mpr ⟨hmem, by simp [hne]⟩)
          exact ⟨p, List.mem_cons_self p rest, hid.symm, status, hr, hok⟩
      · rw [if_neg hok] at hout
        obtain ⟨op2, h1, h2, h3⟩ := ih store op hmem hout
        exact ⟨op2, List.mem_cons_of_mem _ h1, h2, h3⟩
    · simp only [executeWalk, hr] at hout
      by_cases hbr : (isTypeError && messageIncludesNetwork message) = true
      · rw [if_pos hbr] at hout
        exact absurd hmem hout
      · rw [if_neg hbr] at hout
        obtain ⟨op2, h1, h2, h3⟩ := ih store op hmem hout
        exact ⟨op2, List.mem_cons_of_mem _ h1, h2, h3⟩

/-- C1: an operation is removed from the operation store only after its
remote call returned a 2xx response, and a failed HTTP status does not stop
the walk: executing a queue [A(ok), B(HTTP 500), C(ok)] removes exactly A
and C, leaves B queued (both in the store and in the reloaded pending
list), and a subsequent `execute()` pass retries only B. -/
theorem claim_C1_http_failure_does_not_stop_walk
    (resp resp2 : Operation → FetchOutcome) (A B C : Operation)
    (hAB : A.id ≠ B.id) (hAC : A.id ≠ C.id) (hBC : B.id ≠ C.id)
    (hA : resp A = .response 200) (hB : resp B = .response 500)
    (hC : resp C = .response 201) (hB2 : resp2 B = .response 200) :
    (∀ (pending store : List Operation) (op : Operation),
        op ∈ store → op ∉ executeWalk resp pending store →
        ∃ op2, op2 ∈ pending ∧ op2.id = op.id
          ∧ ∃ status, resp op2 = .response status ∧ responseOk status = true)
    ∧ executeOperation resp ⟨[A, B, C], [A, B, C], false⟩ = ⟨[B], [B], false⟩
    ∧ executeOperation resp2 ⟨[B], [B], false⟩ = ⟨[], [], false⟩ := by
  have hBA : B.id ≠ A.id := Ne.symm hAB
  have hCA : C.id ≠ A.id := Ne.symm hAC
  have hCB : C.id ≠ B.id := Ne.symm hBC
  refine ⟨executeWalk_removed_only_on_success resp, ?_, ?_⟩
  · simp [executeOperation, executeWalk, hA, hB, hC, removeOperation,
      responseOk, hAB, hAC, hBC, hBA, hCA, hCB]
  · simp [executeOperation, executeWalk, hB2, removeOperation, responseOk]

/-- C1 witness: the scenario at concrete operations, against a network oracle
answering A with 200, B with 500 and C with 201, and a second pass whose
oracle answers everything 200. -/
theorem claim_C1_witness :
    executeOperation respHttp500 ⟨[opA, opB, opC], [opA, opB, opC], false⟩
        = ⟨[opB], [opB], false⟩
    ∧ executeOperation (fun _ => .response 200) ⟨[opB], [opB], false⟩
        = ⟨[], [], false⟩ :=
  And.intro
    (claim_C1_http_failure_does_not_stop_walk respHttp500
      (fun _ => FetchOutcome.response 200) opA opB opC
      (by decide) (by decide) (by decide)
      (by decide) (by decide) (by decide) (by decide)).2.1
    (claim_C1_http_failure_does_not_stop_walk respHttp500
      (fun _ => FetchOutcome.response 200) opA opB opC
      (by decide) (by decide) (by decide)
      (by decide) (by decide) (by decide) (by decide)).2.2

/-- C2 counterexample: operation B's remote call fails with a genuine
network-connectivity error — a rejected fetch promise carrying a
`TypeError`, as opposed to an HTTP error status — whose message is Chrome's
`Failed to fetch`.  The claim says the walk stops at B, so that no
operation after B is attempted and B and C both remain queued; the code's
`message.includes('network')` classifier misses this error, the walk
continues, attempts C and removes it, and the pass ends with only B
queued. -/
theorem claim_C2_counterexample :
    connectivityFailureSpec (respFailedToFetch opB) = true
    ∧ executeOperation respFailedToFetch ⟨[opA, opB, opC], [opA, opB, opC], false⟩
        = ⟨[opB], [opB], false⟩
    ∧ opC ∉ executeWalk respFailedToFetch [opA, opB, opC] [opA, opB, opC] := by
  refine ⟨rfl, by decide, by decide⟩

/-- C2 (amended): when an operation's remote call rejects with an error the
code classifies as a network-connectivity failure — a `TypeError` whose
message contains the substring `'network'` — the walk stops immediately at
that operation: on a queue [A(ok), B(such a network error), ...rest] exactly
A is removed, no operation after B is attempted (the result does not depend
on the oracle's answers beyond B), and B and all subsequent operations
remain queued. -/
theorem claim_C2_classified_network_error_stops_walk
    (resp : Operation → FetchOutcome) (A B : Operation)
    (rest store : List Operation) (message : String)
    (hA : resp A = .response 200)
    (hB : resp B = .reject true message)
    (hmsg : messageIncludesNetwork message = true) :
    executeWalk resp (A :: B :: rest) store = removeOperation store A.id
    ∧ ∀ op ∈ store, op.id ≠ A.id →
        op ∈ executeWalk resp (A :: B :: rest) store := by
  have hwalk : executeWalk resp (A :: B :: rest) store
      = removeOperation store A.id := by
    simp [executeWalk, hA, hB, hmsg, responseOk]
  refine ⟨hwalk, ?_⟩
  intro op hmem hne
  rw [hwalk]
  exact List.mem_filter.mpr ⟨hmem, by simp [hne]⟩

/-- C2 witness: the amended behaviour at concrete operations, with B
rejecting with `TypeError: network error` (a message the classifier
recognises): only A is removed; B and C stay queued. -/
theorem claim_C2_witness :
    executeWalk respNetworkError [opA, opB, opC] [opA, opB, opC]
        = removeOperation [opA, opB, opC] opA.id
    ∧ ∀ op ∈ ([opA, opB, opC] : List Operation), op.id ≠ opA.id →
        op ∈ executeWalk respNetworkError [opA, opB, opC] [opA, opB, opC] :=
  claim_C2_classified_network_error_stops_walk respNetworkError opA opB [opC]
    [opA, opB, opC] "network error" (by decide) (by decide) (by decide)

/-- C8: starting from fresh metadata, keep-alive failures at `t1 < t2 < t3 <
t4`, each within 30 minutes of the previous reinstall, trigger a reinstall
the first three times (the counter rising to 3) while the fourth is
suppressed — no reinstall is invoked, the count and `lastReinstall` are
unchanged, only an error is logged; once more than 30 minutes have elapsed
since the last reinstall (`t5`), a failure triggers a reinstall again with
the counter reset to 1.  In general, whenever the count has reached 3 and
the last reinstall is still within the rolling 30-minute window, the repair
is suppressed with count and `lastReinstall` unchanged. -/
theorem claim_C8_reinstall_throttle (t1 t2 t3 t4 t5 : Nat)
    (h1 : 0 < t1) (h12 : t1 ≤ t2)
    (h12w : (t2 : Int) - (t1 : Int) < (THIRTY_MINUTES : Int))
    (h23 : t2 ≤ t3)
    (h23w : (t3 : Int) - (t2 : Int) < (THIRTY_MINUTES : Int))
    (h34 : t3 ≤ t4)
    (h34w : (t4 : Int) - (t3 : Int) < (THIRTY_MINUTES : Int))
    (h35 : (THIRTY_MINUTES : Int) < (t5 : Int) - (t3 : Int)) :
    repairAttempt defaultMetadata t1
        = (⟨0, 0, .inactive, [], 1, some t1⟩, true)
    ∧ repairAttempt ⟨0, 0, .inactive, [], 1, some t1⟩ t2
        = (⟨0, 0, .inactive, [], 2, some t2⟩, true)
    ∧ repairAttempt ⟨0, 0, .inactive, [], 2, some t2⟩ t3
        = (⟨0, 0, .inactive, [], 3, some t3⟩, true)
    ∧ repairAttempt ⟨0, 0, .inactive, [], 3, some t3⟩ t4
        = (⟨0, 0, .inactive, ["Too many reinstalls"], 3, some t3⟩, false)
    ∧ repairAttempt ⟨0, 0, .inactive, ["Too many reinstalls"], 3, some t3⟩ t5
        = (⟨0, 0, .inactive, ["Too many reinstalls"], 1, some t5⟩, true)
    ∧ (∀ (m : ServiceWorkerMetadata) (now t : Nat),
        3 ≤ m.reinstallCount → m.lastReinstall = some t →
        ¬((t : Int) < (now : Int) - (THIRTY_MINUTES : Int)) →
        (repairAttempt m now).2 = false
        ∧ (repairAttempt m now).1.reinstallCount = m.reinstallCount
        ∧ (repairAttempt m now).1.lastReinstall = some t) := by
  have ht1 : t1 ≠ 0 := Nat.pos_iff_ne_zero.mp h1
  have ht2 : t2 ≠ 0 := by omega
  have hgt1 : (t1 : Int) > (t2 : Int) - (THIRTY_MINUTES : Int) := by omega
  have hgt2 : (t2 : Int) > (t3 : Int) - (THIRTY_MINUTES : Int) := by omega
  have hnb4 : ¬((t3 : Int) < (t4 : Int) - (THIRTY_MINUTES : Int)) := by omega
  have hb5 : (t3 : Int) < (t5 : Int) - (THIRTY_MINUTES : Int) := by omega
  have hngt5 : ¬((t3 : Int) > (t5 : Int) - (THIRTY_MINUTES : Int)) := by omega
  refine ⟨?_, ?_, ?_, ?_, ?_, ?_⟩
  · simp [repairAttempt, defaultMetadata, lastReinstallTruthyAfter]
  · simp [repairAttempt, lastReinstallBefore, lastReinstallTruthyAfter,
      ht1, hgt1]
  · simp [repairAttempt, lastReinstallBefore, lastReinstallTruthyAfter,
      ht2, hgt2]
  · simp [repairAttempt, lastReinstallBefore, lastReinstallTruthyAfter,
      hnb4, pushBoundedError]
  · simp [repairAttempt, lastReinstallBefore, lastReinstallTruthyAfter,
      hb5, hngt5]
  · intro m now t hcount hlast hwin
    have hlt : ¬(m.reinstallCount < 3) := by omega
    simp [repairAttempt, hlast, lastReinstallBefore, hlt, hwin]

/-- C8 witness: the throttle trace at concrete times 1, 2, 3, 4 and
1 800 004 milliseconds (the last more than 30 minutes after the third
reinstall). -/
theorem claim_C8_witness :
    repairAttempt defaultMetadata 1
        = (⟨0, 0, .inactive, [], 1, some 1⟩, true)
    ∧ repairAttempt ⟨0, 0, .inactive, [], 1, some 1⟩ 2
        = (⟨0, 0, .inactive, [], 2, some 2⟩, true)
    ∧ repairAttempt ⟨0, 0, .inactive, [], 2, some 2⟩ 3
        = (⟨0, 0, .inactive, [], 3, some 3⟩, true)
    ∧ repairAttempt ⟨0, 0, .inactive, [], 3, some 3⟩ 4
        = (⟨0, 0, .inactive, ["Too many reinstalls"], 3, some 3⟩, false)
    ∧ repairAttempt ⟨0, 0, .inactive, ["Too many reinstalls"], 3, some 3⟩ 1800004
        = (⟨0, 0, .inactive, ["Too many reinstalls"], 1, some 1800004⟩, true) :=
  have h := claim_C8_reinstall_throttle 1 2 3 4 1800004 (by decide) (by decide)
    (by decide) (by decide) (by decide) (by decide) (by decide) (by decide)
  ⟨h.1, h.2.1, h.2.2.1, h.2.2.2.1, h.2.2.2.2.1⟩

end NestTask
